import Mathlib

/-!
Shallow embedding of the footscale measurement widget.

The repository is a client-side foot-measurement tool: the user taps four
calibration points (two on an A4 paper edge, two on the foot), and the code
converts the pixel distance of the foot segment into millimeters using the
known 210 mm paper width, then classifies the length into a shoe-size bucket.

JavaScript numbers are modelled by `JSVal` (a finite real, positive or
negative infinity, or NaN), so that the behaviour of division by zero and of
comparisons against non-finite values is captured faithfully.  Pure helper
functions (`distance`, `getShoeSize`, `getUKSize`, `convertSize`,
`getInstruction`, `zoom`) are translated one-for-one from the source; the
point-collector of the preview/confirm revision is modelled as an explicit
event-step function on an `AppState` record.
-/

namespace Footscale

/-- A calibration point, from `type Point = { x: number; y: number }`. -/
structure Point where
  x : ℝ
  y : ℝ

/-- The JavaScript number domain relevant to this program: a finite real,
positive infinity, negative infinity, or NaN. -/
inductive JSVal where
  | finite (x : ℝ)
  | inf
  | negInf
  | nan

/-- JavaScript comparison `v < c` for a number `v` (possibly non-finite)
against a finite constant `c`: `Infinity < c` and `NaN < c` are false,
`-Infinity < c` is true. -/
noncomputable def jsLt (v : JSVal) (c : ℝ) : Bool :=
  match v with
  | .finite x => decide (x < c)
  | .negInf => true
  | .inf => false
  | .nan => false

/-- JavaScript division `a / b` of finite reals: division by zero yields
an infinity (or NaN for `0 / 0`), from `const mmPerPixel = 210 / paperWidthPx`. -/
noncomputable def jsDiv (a b : ℝ) : JSVal :=
  if b = 0 then
    (if a = 0 then .nan else if 0 < a then .inf else .negInf)
  else .finite (a / b)

/-- JavaScript multiplication of a finite real by a possibly non-finite
number, from `const footMM = footPx * mmPerPixel`. -/
noncomputable def jsMul (a : ℝ) (v : JSVal) : JSVal :=
  match v with
  | .finite x => .finite (a * x)
  | .inf => if 0 < a then .inf else if a < 0 then .negInf else .nan
  | .negInf => if 0 < a then .negInf else if a < 0 then .inf else .nan
  | .nan => .nan

/-- `function distance(p1, p2) { return Math.hypot(p2.x - p1.x, p2.y - p1.y); }` -/
noncomputable def distance (p1 p2 : Point) : ℝ :=
  Real.sqrt ((p2.x - p1.x) ^ 2 + (p2.y - p1.y) ^ 2)

/-- `function getShoeSize(mm)` from src/app/page.tsx lines 23-30:
strict `<` against the thresholds 240, 250, 260, 270, 280. -/
noncomputable def getShoeSize (mm : JSVal) : String :=
  if jsLt mm 240 then "UK 5"
  else if jsLt mm 250 then "UK 6"
  else if jsLt mm 260 then "UK 7"
  else if jsLt mm 270 then "UK 8"
  else if jsLt mm 280 then "UK 9"
  else "UK 10+"

/-- `function getUKSize(mm)` from src/app/page.tsx lines 498-505 (numeric
variant of the classifier). -/
noncomputable def getUKSize (mm : JSVal) : ℕ :=
  if jsLt mm 240 then 5
  else if jsLt mm 250 then 6
  else if jsLt mm 260 then 7
  else if jsLt mm 270 then 8
  else if jsLt mm 280 then 9
  else 10

/-- The selectable size system, from `type SizeSystem = "UK" | "US" | "IND"`. -/
inductive SizeSystem where
  | UK
  | US
  | IND

/-- `function convertSize(uk, system)` from src/app/page.tsx lines 507-516:
`US` adds 1, `IND` and the default (`UK`) return the size unchanged. -/
def convertSize (uk : ℤ) (system : SizeSystem) : ℤ :=
  match system with
  | .US => uk + 1
  | .IND => uk
  | .UK => uk

/-- JavaScript array indexing `l[i]` with a (possibly negative) integer
index: `some` element when `0 <= i < l.length`, otherwise `none`
(JavaScript `undefined`). -/
def jsIndex (l : List String) (i : ℤ) : Option String :=
  if h : 0 ≤ i ∧ i.toNat < l.length then some (l.get ⟨i.toNat, h.2⟩) else none

/-- The instruction list of `getInstruction` in src/app/page.tsx lines 32-41. -/
def instructionSteps : List String :=
  ["Step 1: Tap LEFT edge of A4 paper",
   "Step 2: Tap RIGHT edge of A4 paper",
   "Step 3: Tap TOE of foot",
   "Step 4: Tap HEEL of foot",
   "Measurement completed ✅"]

/-- `function getInstruction(step)` from src/app/page.tsx lines 32-41:
`steps[step] ?? ""` — an out-of-range index yields `undefined`, which the
nullish coalescing turns into the empty string.  (part_000 lines 20-29 uses
`steps[step] || ""`, identical on this list of non-empty strings.) -/
def getInstruction (step : ℤ) : String :=
  (jsIndex instructionSteps step).getD ""

/-- The instruction list of the preview/confirm revision, lines 518-530. -/
def markingSteps : List String :=
  ["Select LEFT edge of A4 paper",
   "Select RIGHT edge of A4 paper",
   "Select TOE of foot",
   "Select HEEL of foot",
   "Measurement complete ✅"]

/-- `function getInstruction(step, marking)` from src/app/page.tsx lines
518-530: when not marking, a fixed pan/zoom hint; when marking,
`steps[step] ?? ""`. -/
def getInstruction2 (step : ℤ) (marking : Bool) : String :=
  match marking with
  | false => "Pinch to zoom • Drag to move • Tap Start Marking"
  | true => (jsIndex markingSteps step).getD ""

/-- `function zoom(factor)` from src/app/page.tsx lines 386-388:
`Math.min(4, Math.max(1, s * factor))` applied to the current scale. -/
def zoom (s factor : ℚ) : ℚ :=
  min 4 (max 1 (s * factor))

/-- The pinch-zoom scale update of `onPointerMove` in src/app/page.tsx
lines 727-734: `Math.min(6, Math.max(0.8, t.scale * factor))`. -/
def pinchScale (s factor : ℚ) : ℚ :=
  min 6 (max 0.8 (s * factor))

/-- The stored measurement result of the first revision
(`type Result = { mm, size }`); `mm` holds the computed number (the source
formats it with `toFixed(1)` for display). -/
structure Result where
  mm : JSVal
  size : String

/-- The measurement computation of the `useEffect` in src/app/page.tsx
lines 104-117: `paperWidthPx = distance(points[0], points[1])`,
`footPx = distance(points[2], points[3])`, `mmPerPixel = 210 / paperWidthPx`,
`footMM = footPx * mmPerPixel`, stored together with `getShoeSize(footMM)`.
There is no check for a degenerate (zero-length) paper segment. -/
noncomputable def runMeasurement (p0 p1 p2 p3 : Point) : Result :=
  let paperWidthPx := distance p0 p1
  let footPx := distance p2 p3
  let mmPerPixel := jsDiv 210 paperWidthPx
  let footMM := jsMul footPx mmPerPixel
  { mm := footMM, size := getShoeSize footMM }

/-- The state of the preview/confirm revision (third component in
src/app/page.tsx): committed points, pending preview point, marking flag,
stored result (`{ mm: number }`) and result-modal flag. -/
structure AppState where
  points : List Point
  previewPoint : Option Point
  isMarking : Bool
  result : Option JSVal
  showModal : Bool

/-- The measured millimeter value of the `useEffect` in src/app/page.tsx
lines 759-768: `mm = (footPx * 210) / paperPx`. -/
noncomputable def measuredMM (pts : List Point) : JSVal :=
  let paperPx := distance (pts.getD 0 ⟨0, 0⟩) (pts.getD 1 ⟨0, 0⟩)
  let footPx := distance (pts.getD 2 ⟨0, 0⟩) (pts.getD 3 ⟨0, 0⟩)
  jsDiv (footPx * 210) paperPx

/-- The measure `useEffect` (src/app/page.tsx lines 759-768), which React
runs after every update of `points`: when exactly 4 points exist it clears
`isMarking`, computes and stores the result, and shows the modal;
otherwise it does nothing. -/
noncomputable def measureEffect (s : AppState) : AppState :=
  if s.points.length = 4 then
    { s with isMarking := false,
             result := some (measuredMM s.points),
             showModal := true }
  else s

/-- The user events of the preview/confirm revision that touch the point
collector: the Start Marking button (enabled whenever an image is loaded),
a pointer tap at image coordinates `p`, the Confirm Point button
(`confirmPoint`, lines 746-750), and the Undo button (`undoLast`,
lines 752-755). -/
inductive Event where
  | startMarking
  | pointerDown (p : Point)
  | confirmPoint
  | undoLast

/-- One event of the preview/confirm revision, followed by the measure
effect whenever the handler updated `points` (React re-runs the
`[points]` effect exactly then).  `startMarking` sets the flag
unconditionally; `pointerDown` sets the preview point only while marking
(otherwise it starts a pan); `confirmPoint` appends the preview point with
no length check; `undoLast` drops the last point and clears the result. -/
noncomputable def step (s : AppState) : Event → AppState
  | .startMarking => { s with isMarking := true }
  | .pointerDown p => if s.isMarking then { s with previewPoint := some p } else s
  | .confirmPoint =>
      match s.previewPoint with
      | none => s
      | some p => measureEffect { s with points := s.points ++ [p], previewPoint := none }
  | .undoLast => measureEffect { s with points := s.points.dropLast, result := none }

/-- Run a list of events in order from a state. -/
noncomputable def run (s : AppState) (es : List Event) : AppState :=
  es.foldl step s

/-- The state right after an image is loaded (`handleImageUpload` resets
points, preview, result, modal and marking). -/
def initState : AppState :=
  { points := [], previewPoint := none, isMarking := false,
    result := none, showModal := false }

/-! ## Helper lemmas -/

theorem getShoeSize_finite (x : ℝ) :
    getShoeSize (.finite x) =
      if x < 240 then "UK 5"
      else if x < 250 then "UK 6"
      else if x < 260 then "UK 7"
      else if x < 270 then "UK 8"
      else if x < 280 then "UK 9"
      else "UK 10+" := by
  simp [getShoeSize, jsLt]

theorem getUKSize_finite (x : ℝ) :
    getUKSize (.finite x) =
      if x < 240 then 5
      else if x < 250 then 6
      else if x < 260 then 7
      else if x < 270 then 8
      else if x < 280 then 9
      else 10 := by
  simp [getUKSize, jsLt]

theorem jsIndex_out_of_range (l : List String) (i : ℤ)
    (h : i < 0 ∨ (l.length : ℤ) ≤ i) : jsIndex l i = none := by
  unfold jsIndex
  rw [dif_neg]
  omega

/-! ## Claim theorems -/

/-- Claim C3 (amended): the classifier maps a foot length through the fixed
thresholds strict-less-than 240 to size 5, 250 to 6, 260 to 7, 270 to 8,
280 to 9, else 10(+); every exact boundary value (240, 250, 260, 270, 280)
is classified into the HIGHER of its two adjacent buckets, because the
comparisons are strict. -/
theorem C3_shoe_size_thresholds :
    (∀ mm : ℝ, mm < 240 → getShoeSize (.finite mm) = "UK 5") ∧
    (∀ mm : ℝ, 240 ≤ mm → mm < 250 → getShoeSize (.finite mm) = "UK 6") ∧
    (∀ mm : ℝ, 250 ≤ mm → mm < 260 → getShoeSize (.finite mm) = "UK 7") ∧
    (∀ mm : ℝ, 260 ≤ mm → mm < 270 → getShoeSize (.finite mm) = "UK 8") ∧
    (∀ mm : ℝ, 270 ≤ mm → mm < 280 → getShoeSize (.finite mm) = "UK 9") ∧
    (∀ mm : ℝ, 280 ≤ mm → getShoeSize (.finite mm) = "UK 10+") ∧
    getShoeSize (.finite 240) = "UK 6" ∧ getShoeSize (.finite 250) = "UK 7" ∧
    getShoeSize (.finite 260) = "UK 8" ∧ getShoeSize (.finite 270) = "UK 9" ∧
    getShoeSize (.finite 280) = "UK 10+" := by
  refine ⟨fun mm h => ?_, fun mm h1 h2 => ?_, fun mm h1 h2 => ?_,
    fun mm h1 h2 => ?_, fun mm h1 h2 => ?_, fun mm h1 => ?_, ?_, ?_, ?_, ?_, ?_⟩ <;>
    rw [getShoeSize_finite] <;>
    split_ifs <;>
    first
      | rfl
      | (exfalso; linarith)

/-- Witness for C3: a concrete length in each regime, via the theorem. -/
theorem C3_shoe_size_thresholds_witness :
    getShoeSize (.finite 235) = "UK 5" ∧ getShoeSize (.finite 245) = "UK 6" :=
  ⟨C3_shoe_size_thresholds.1 235 (by norm_num),
   C3_shoe_size_thresholds.2.1 245 (by norm_num) (by norm_num)⟩

/-- Counterexample to claim C3 as stated: the exact boundary value 240 is
classified as "UK 6" (the higher adjacent bucket), not "UK 5" (the lower
one) as the claim asserts. -/
theorem C3_boundary_goes_to_higher_bucket :
    getShoeSize (.finite 240) = "UK 6" ∧ getShoeSize (.finite 240) ≠ "UK 5" := by
  have h : getShoeSize (.finite 240) = "UK 6" := by
    rw [getShoeSize_finite]
    norm_num
  exact ⟨h, by rw [h]; decide⟩

/-- Claim C4: the size bucketing is monotone — for any two finite lengths
mm1 < mm2 the numeric bucket of mm1 is at most that of mm2 — and each exact
boundary value falls into the next-higher bucket since the comparisons are
strict. -/
theorem C4_bucketing_monotone :
    (∀ mm1 mm2 : ℝ, mm1 < mm2 →
      getUKSize (.finite mm1) ≤ getUKSize (.finite mm2)) ∧
    getUKSize (.finite 240) = 6 ∧ getUKSize (.finite 250) = 7 ∧
    getUKSize (.finite 260) = 8 ∧ getUKSize (.finite 270) = 9 ∧
    getUKSize (.finite 280) = 10 := by
  refine ⟨fun mm1 mm2 h => ?_, ?_, ?_, ?_, ?_, ?_⟩ <;>
    rw [getUKSize_finite] <;>
    first
      | (rw [getUKSize_finite]; split_ifs <;> first | omega | (exfalso; linarith))
      | norm_num

/-- Witness for C4: monotonicity applied at 100 < 300. -/
theorem C4_bucketing_monotone_witness :
    getUKSize (.finite 100) ≤ getUKSize (.finite 300) :=
  C4_bucketing_monotone.1 100 300 (by norm_num)

/-- Claim C9: the unit conversion returns UK + 1 for the US system and the
UK size unchanged for the IND and UK systems, for every integer UK size. -/
theorem C9_convertSize_spec :
    ∀ uk : ℤ, convertSize uk .US = uk + 1 ∧ convertSize uk .IND = uk ∧
      convertSize uk .UK = uk :=
  fun _ => ⟨rfl, rfl, rfl⟩

/-- Witness for C9: conversion evaluated at UK size 7. -/
theorem C9_convertSize_spec_witness :
    convertSize 7 .US = 7 + 1 ∧ convertSize 7 .IND = 7 ∧ convertSize 7 .UK = 7 :=
  C9_convertSize_spec 7

/-- Claim C10: the instruction-text functions are total — for every step
index outside 0..4 (negative or greater than 4) they return the empty
string (in the marking branch for the two-argument revision). -/
theorem C10_getInstruction_total :
    ∀ step : ℤ, step < 0 ∨ 4 < step →
      getInstruction step = "" ∧ getInstruction2 step true = "" := by
  intro step h
  constructor
  · unfold getInstruction
    rw [jsIndex_out_of_range]
    · rfl
    · rw [show (instructionSteps.length : ℤ) = 5 from rfl]
      omega
  · show (jsIndex markingSteps step).getD "" = ""
    rw [jsIndex_out_of_range]
    · rfl
    · rw [show (markingSteps.length : ℤ) = 5 from rfl]
      omega

/-- Witness for C10: evaluated at the out-of-range indices 7 and -3. -/
theorem C10_getInstruction_total_witness :
    (getInstruction 7 = "" ∧ getInstruction2 7 true = "") ∧
    (getInstruction (-3) = "" ∧ getInstruction2 (-3) true = "") :=
  ⟨C10_getInstruction_total 7 (by norm_num),
   C10_getInstruction_total (-3) (by norm_num)⟩

/-- Claim C5: for every starting scale and every requested factor, the
scale after a zoom operation lies in the configured range — [1, 4] for the
button/`zoom` revision and [0.8, 6] for the pinch revision — and hence
after every nonempty sequence of zoom operations as well. -/
theorem C5_scale_clamped :
    (∀ s f : ℚ, 1 ≤ zoom s f ∧ zoom s f ≤ 4) ∧
    (∀ s f : ℚ, 0.8 ≤ pinchScale s f ∧ pinchScale s f ≤ 6) ∧
    (∀ (s : ℚ) (fs : List ℚ), fs ≠ [] →
      1 ≤ List.foldl zoom s fs ∧ List.foldl zoom s fs ≤ 4) := by
  have single : ∀ s f : ℚ, 1 ≤ zoom s f ∧ zoom s f ≤ 4 := by
    intro s f
    exact ⟨le_min (by norm_num) (le_max_left 1 (s * f)), min_le_left 4 _⟩
  have aux : ∀ (fs : List ℚ) (s : ℚ), 1 ≤ s → s ≤ 4 →
      1 ≤ List.foldl zoom s fs ∧ List.foldl zoom s fs ≤ 4 := by
    intro fs
    induction fs with
    | nil => exact fun s h1 h4 => ⟨h1, h4⟩
    | cons f t ih =>
        intro s _ _
        exact ih (zoom s f) (single s f).1 (single s f).2
  refine ⟨single, ?_, ?_⟩
  · intro s f
    exact ⟨le_min (by norm_num) (le_max_left 0.8 (s * f)), min_le_left 6 _⟩
  · intro s fs hfs
    match fs with
    | [] => exact absurd rfl hfs
    | f :: t => exact aux t (zoom s f) (single s f).1 (single s f).2

/-- Witness for C5: a huge factor from scale 100, and a sequence. -/
theorem C5_scale_clamped_witness :
    (1 ≤ zoom 100 1000000 ∧ zoom 100 1000000 ≤ 4) ∧
    (0.8 ≤ pinchScale 100 1000000 ∧ pinchScale 100 1000000 ≤ 6) ∧
    (1 ≤ List.foldl zoom 50 [1000000, 0] ∧ List.foldl zoom 50 [1000000, 0] ≤ 4) :=
  ⟨C5_scale_clamped.1 100 1000000,
   C5_scale_clamped.2.1 100 1000000,
   C5_scale_clamped.2.2 50 [1000000, 0] (by decide)⟩

theorem sqrt_ten_thousand : Real.sqrt 10000 = 100 := by
  rw [show (10000 : ℝ) = 100 ^ 2 by norm_num,
    Real.sqrt_sq (by norm_num : (0 : ℝ) ≤ 100)]

theorem distance_self (p : Point) : distance p p = 0 := by
  simp [distance]

theorem distance_horizontal_100 : distance ⟨0, 0⟩ ⟨100, 0⟩ = 100 := by
  unfold distance
  norm_num [sqrt_ten_thousand]

theorem distance_vertical_100 : distance ⟨10, 50⟩ ⟨10, 150⟩ = 100 := by
  unfold distance
  norm_num [sqrt_ten_thousand]

/-- Claim C7: on the fixed input points (0,0), (100,0), (10,50), (10,150)
the paper segment measures 100 px, the foot segment 100 px, the computed
foot length is exactly 210 mm, and the classification is UK 5. -/
theorem C7_fixed_input_measurement :
    distance ⟨0, 0⟩ ⟨100, 0⟩ = 100 ∧ distance ⟨10, 50⟩ ⟨10, 150⟩ = 100 ∧
    runMeasurement ⟨0, 0⟩ ⟨100, 0⟩ ⟨10, 50⟩ ⟨10, 150⟩ =
      { mm := JSVal.finite 210, size := "UK 5" } := by
  refine ⟨distance_horizontal_100, distance_vertical_100, ?_⟩
  unfold runMeasurement
  rw [distance_horizontal_100, distance_vertical_100]
  have hdiv : jsDiv 210 100 = .finite (210 / 100) := by
    unfold jsDiv
    norm_num
  have hmul : jsMul 100 (.finite (210 / 100)) = .finite 210 := by
    unfold jsMul
    norm_num
  have hsize : getShoeSize (.finite 210) = "UK 5" := by
    rw [getShoeSize_finite]
    norm_num
  simp only [hdiv, hmul, hsize]

/-- Claim C1 (code evaluation at the failing input): for the degenerate
calibration points (5,5), (5,5), (0,0), (100,0) — both paper points
identical — the measurement computation of the source divides 210 by the
zero paper-pixel distance and stores Infinity as the foot length, with
size "UK 10+"; no cannot-compute or empty result is produced. -/
theorem C1_degenerate_paper_stores_infinity :
    runMeasurement ⟨5, 5⟩ ⟨5, 5⟩ ⟨0, 0⟩ ⟨100, 0⟩ =
      { mm := JSVal.inf, size := "UK 10+" } := by
  unfold runMeasurement
  rw [distance_self, distance_horizontal_100]
  have hdiv : jsDiv 210 0 = .inf := by
    unfold jsDiv
    norm_num
  have hmul : jsMul 100 .inf = .inf := by
    unfold jsMul
    norm_num
  have hsize : getShoeSize .inf = "UK 10+" := rfl
  simp only [hdiv, hmul, hsize]

/-- Claim C2 (code evaluation at the failing input): in the
preview/confirm revision, after completing all 4 points the Start Marking
button is still enabled; pressing it, tapping, and confirming appends a
5th point, because `confirmPoint` has no length check.  The collection
reaches length 5, violating the claimed cap. -/
theorem C2_fifth_point_appended :
    (run initState
      [.startMarking, .pointerDown ⟨0, 0⟩, .confirmPoint,
       .pointerDown ⟨100, 0⟩, .confirmPoint,
       .pointerDown ⟨10, 50⟩, .confirmPoint,
       .pointerDown ⟨10, 150⟩, .confirmPoint,
       .startMarking, .pointerDown ⟨50, 50⟩, .confirmPoint]).points.length = 5 := by
  rfl

/-- Counterexample to claim C6 as stated: a reachable state with 4 points
in which `isMarking` is true — after the 4th confirmation cleared the flag,
pressing Start Marking (still enabled) turns marking back on while the 4
points remain. -/
theorem C6_marking_reenterable_with_four_points :
    ((run initState
      [.startMarking, .pointerDown ⟨0, 0⟩, .confirmPoint,
       .pointerDown ⟨100, 0⟩, .confirmPoint,
       .pointerDown ⟨10, 50⟩, .confirmPoint,
       .pointerDown ⟨10, 150⟩, .confirmPoint,
       .startMarking]).points.length = 4) ∧
    ((run initState
      [.startMarking, .pointerDown ⟨0, 0⟩, .confirmPoint,
       .pointerDown ⟨100, 0⟩, .confirmPoint,
       .pointerDown ⟨10, 50⟩, .confirmPoint,
       .pointerDown ⟨10, 150⟩, .confirmPoint,
       .startMarking]).isMarking = true) :=
  ⟨rfl, rfl⟩

/-- Claim C6 (amended): confirming a point that brings the collection to
exactly 4 points clears `isMarking` as part of that transition (the
measure effect runs and forces it false). -/
theorem C6_fourth_confirm_clears_marking (s : AppState) (p : Point)
    (hp : s.previewPoint = some p) (h3 : s.points.length = 3) :
    (step s .confirmPoint).isMarking = false ∧
    (step s .confirmPoint).points.length = 4 := by
  have hstep : step s .confirmPoint =
      measureEffect { s with points := s.points ++ [p], previewPoint := none } := by
    unfold step
    rw [hp]
  have hlen : ({ s with points := s.points ++ [p], previewPoint := none } :
      AppState).points.length = 4 := by
    simp [h3]
  rw [hstep]
  unfold measureEffect
  rw [if_pos hlen]
  exact ⟨rfl, hlen⟩

/-- Witness for C6: a concrete 3-point state with a pending preview. -/
theorem C6_fourth_confirm_clears_marking_witness :
    (step { points := [⟨0, 0⟩, ⟨100, 0⟩, ⟨10, 50⟩], previewPoint := some ⟨10, 150⟩,
            isMarking := true, result := none, showModal := false }
      .confirmPoint).isMarking = false ∧
    (step { points := [⟨0, 0⟩, ⟨100, 0⟩, ⟨10, 50⟩], previewPoint := some ⟨10, 150⟩,
            isMarking := true, result := none, showModal := false }
      .confirmPoint).points.length = 4 :=
  C6_fourth_confirm_clears_marking _ ⟨10, 150⟩ rfl rfl

/-- Claim C8: from any state whose collection holds exactly 3 points,
one undo yields exactly the first 2 points in their original order and
clears any previously stored measurement result. -/
theorem C8_undo_from_three_points (s : AppState) (p1 p2 p3 : Point)
    (h : s.points = [p1, p2, p3]) :
    (step s .undoLast).points = [p1, p2] ∧ (step s .undoLast).result = none := by
  have hstep : step s .undoLast =
      measureEffect { s with points := s.points.dropLast, result := none } := rfl
  rw [hstep, h]
  exact ⟨rfl, rfl⟩

/-- Witness for C8: a concrete 3-point state carrying a stale result. -/
theorem C8_undo_from_three_points_witness :
    (step { points := [⟨0, 0⟩, ⟨100, 0⟩, ⟨10, 50⟩], previewPoint := none,
            isMarking := true, result := some (JSVal.finite 100), showModal := false }
      .undoLast).points = [⟨0, 0⟩, ⟨100, 0⟩] ∧
    (step { points := [⟨0, 0⟩, ⟨100, 0⟩, ⟨10, 50⟩], previewPoint := none,
            isMarking := true, result := some (JSVal.finite 100), showModal := false }
      .undoLast).result = none :=
  C8_undo_from_three_points _ ⟨0, 0⟩ ⟨100, 0⟩ ⟨10, 50⟩ rfl

end Footscale
